import Mathlib

/-!
Verification development for the Ocean Network Canada Assistant repository.

The definitions below are a shallow embedding, in Lean, of the repository's
Python code.  Each section names the source file it embeds; the theorems at
the end of the file settle the specification claims against these
definitions.  Machine-level concerns (the HTTP framework, the Mongo driver,
wall-clock time) are modelled explicitly: collections are lists of documents,
`datetime.now()` values are passed in as parameters, and a raised
`HTTPException(status, detail)` is the `httpError` constructor of `ApiResult`.
-/

namespace ONCAssistant

/-! ## Python string helpers
Python strings are sequences of code points: `String.data : List Char` is
the faithful carrier.  `pySlice s n` is `s[:n]`, `containsSub hay needle`
is Python's `needle in hay`, `pyWordCount` is `len(s.split())` (split on
whitespace runs, empties dropped), `pyStrip` is `s.strip()`. -/

def pySlice (s : String) (n : Nat) : String := ⟨s.data.take n⟩

/-- Python `s.lower()` (character-wise; the inputs in play are ASCII). -/
def pyToLower (s : String) : String := ⟨s.data.map Char.toLower⟩

/-- `needle` matches at the head of `hay`. -/
def startsWithChars : List Char → List Char → Bool
  | [], _ => true
  | _ :: _, [] => false
  | n :: ns, h :: hs => n == h && startsWithChars ns hs

/-- `needle` occurs contiguously somewhere in `hay`. -/
def occursIn (needle : List Char) : List Char → Bool
  | [] => needle.isEmpty
  | h :: rest => startsWithChars needle (h :: rest) || occursIn needle rest

def containsSub (hay needle : String) : Bool := occursIn needle.data hay.data

def countWordsAux : Bool → List Char → Nat
  | _, [] => 0
  | inWord, c :: rest =>
      if c.isWhitespace then countWordsAux false rest
      else (if inWord then 0 else 1) + countWordsAux true rest

def pyWordCount (s : String) : Nat := countWordsAux false s.data

def pyStrip (s : String) : String :=
  ⟨((s.data.dropWhile Char.isWhitespace).reverse.dropWhile Char.isWhitespace).reverse⟩

/-! ## Web API layer: document-store model
Embedding of `backend/app/routes/chat_history.py` and
`backend/app/routes/message_routes.py`.  A Mongo collection is a list of
documents in insertion order; `_id` is the `oid` field.  `delete_one` /
`update_one` act on the first matching document, which coincides with Mongo's
behaviour because `_id` is unique (stated as a `Nodup` hypothesis where a
theorem needs it). -/

/-- One document of the `chats` collection. -/
structure ChatDoc where
  oid : String
  user_id : String
  summary : String
  last_timestamp : Nat
  deriving Repr, DecidableEq

/-- One document of the `messages` collection. -/
structure MessageDoc where
  oid : String
  chat_id : String
  user_id : String
  text : String
  rating : Int
  timestamp : Nat
  deriving Repr, DecidableEq

/-- The document store: the two collections the chat/message routes touch. -/
structure DB where
  chats : List ChatDoc
  messages : List MessageDoc
  deriving Repr, DecidableEq

/-- Outcome of a route handler: a normal return value, or a raised
`HTTPException(status, detail)`. -/
inductive ApiResult (α : Type) where
  | ok : α → ApiResult α
  | httpError : Nat → String → ApiResult α
  deriving Repr, DecidableEq

/-- `delete_one` on `chats` with filter `{_id: oid}`: removes the first
matching document and reports `deleted_count`. -/
def deleteOneChat : List ChatDoc → String → List ChatDoc × Nat
  | [], _ => ([], 0)
  | c :: cs, oid =>
      if c.oid = oid then (cs, 1)
      else
        let (cs', n) := deleteOneChat cs oid
        (c :: cs', n)

/-- `DELETE /api/chat-histories/{chat_id}` (`chat_history.py`, `delete_chat`):
`delete_many` on messages with `{chat_id: chat_id}`, then `delete_one` on
chats; 404 when the chat deletion matched nothing.  The message deletion has
already happened when the 404 is raised.  Ids are abstract strings here: the
`ObjectId(chat_id)` parse, which rejects malformed id strings with a 500
before any deletion, is outside the model. -/
def delete_chat (db : DB) (chat_id : String) : DB × ApiResult String :=
  let messages' := db.messages.filter (fun m => m.chat_id ≠ chat_id)
  let deleted := deleteOneChat db.chats chat_id
  let db' : DB := ⟨deleted.1, messages'⟩
  if deleted.2 = 0 then (db', .httpError 404 "Chat not found")
  else (db', .ok "Chat and related messages deleted")

/-- The update body of `PUT /api/chat-histories/{chat_id}` after the
allowed-field filter: only `summary` and `last_timestamp` survive it (any
other supplied key is dropped before the `$set`). -/
structure ChatUpdates where
  summary : Option String
  last_timestamp : Option Nat
  deriving Repr, DecidableEq

/-- The `$set` of `update_chat` applied to one chat document. -/
def applyChatUpdate (u : ChatUpdates) (c : ChatDoc) : ChatDoc :=
  { c with
    summary := u.summary.getD c.summary
    last_timestamp := u.last_timestamp.getD c.last_timestamp }

/-- `update_one` on `chats` with filter `{_id: oid}`: applies the `$set` to
the first matching document and reports `matched_count`. -/
def updateOneChat : List ChatDoc → String → ChatUpdates → List ChatDoc × Nat
  | [], _, _ => ([], 0)
  | c :: cs, oid, u =>
      if c.oid = oid then (applyChatUpdate u c :: cs, 1)
      else
        let (cs', n) := updateOneChat cs oid u
        (c :: cs', n)

/-- `PUT /api/chat-histories/{chat_id}` (`chat_history.py`, `update_chat`):
restricted `$set`, 404 when no chat matched. -/
def update_chat (db : DB) (chat_id : String) (updates : ChatUpdates) :
    DB × ApiResult String :=
  let updated := updateOneChat db.chats chat_id updates
  let db' : DB := { db with chats := updated.1 }
  if updated.2 = 0 then (db', .httpError 404 "Chat not found")
  else (db', .ok "Chat updated")

/-- The JSON body of `POST /api/messages` as the handler reads it: a plain
dict, each relevant key possibly absent.  The handler never reads the
`rating` key, but a caller may supply one; it is carried here to state that
it is ignored. -/
structure MessagePayload where
  text : Option String
  chat_id : Option String
  user_id : Option String
  rating : Option Int
  deriving Repr, DecidableEq

/-- `POST /api/messages` (`message_routes.py`, `create_message`): requires
`text`, `chat_id`, `user_id` (400 otherwise); inserts the message with
`rating = 0` and the current timestamp; then updates the parent chat's
summary — `data["text"][:100] + ("..." if len(data["text"]) > 100 else "")`
— and last timestamp via `update_chat` (whose 404 propagates after the
message was already inserted).  `now` is `datetime.now(timezone.utc)` and
`newId` the generated `_id`. -/
def create_message (db : DB) (payload : MessagePayload) (now : Nat)
    (newId : String) : DB × ApiResult String :=
  match payload.text, payload.chat_id, payload.user_id with
  | some text, some cid, some uid =>
      let msg : MessageDoc :=
        { oid := newId, chat_id := cid, user_id := uid, text := text,
          rating := 0, timestamp := now }
      let db1 : DB := { db with messages := db.messages ++ [msg] }
      let summary := pySlice text 100 ++ (if text.length > 100 then "..." else "")
      let updated := update_chat db1 cid ⟨some summary, some now⟩
      match updated.2 with
      | .ok _ => (updated.1, .ok newId)
      | .httpError code detail => (updated.1, .httpError code detail)
  | _, _, _ =>
      (db, .httpError 400 "Missing one of: \x7b'text', 'chat_id', 'user_id'\x7d")

/-- `update_one` on `messages` with filter `{_id: oid}` and
`$set {rating}`. -/
def updateOneMessageRating : List MessageDoc → String → Int → List MessageDoc × Nat
  | [], _, _ => ([], 0)
  | m :: ms, oid, r =>
      if m.oid = oid then ({ m with rating := r } :: ms, 1)
      else
        let (ms', n) := updateOneMessageRating ms oid r
        (m :: ms', n)

/-- `PUT /api/messages/{message_id}/rating` (`message_routes.py`,
`update_message_rating`): 400 unless `rating ∈ [-1, 0, 1]`, then
`update_one`, 404 when no message matched. -/
def update_message_rating (db : DB) (message_id : String) (rating : Int) :
    DB × ApiResult String :=
  if rating ∉ ([-1, 0, 1] : List Int) then
    (db, .httpError 400 "Rating must be -1, 0, or 1")
  else
    let updated := updateOneMessageRating db.messages message_id rating
    let db' : DB := { db with messages := updated.1 }
    if updated.2 = 0 then (db', .httpError 404 "Message not found")
    else (db', .ok "Rating updated")

/-- `GET /api/messages-by-rating` (`message_routes.py`,
`get_messages_by_rating`): 400 unless `rating ∈ [-1, 0, 1]`, else the
messages with exactly that rating (the `sort("timestamp", 1)` is kept
abstract: documents come back in collection order, which the claims do not
touch). -/
def get_messages_by_rating (db : DB) (rating : Int) :
    ApiResult (List MessageDoc) :=
  if rating ∉ ([-1, 0, 1] : List Int) then
    .httpError 400 "Rating must be -1, 0, or 1"
  else
    .ok (db.messages.filter (fun m => m.rating = rating))

/-! ## ONC API Client
Embedding of `src/database_search/onc_api_client.py`.  The HTTP layer is
modelled by an `HttpOutcome` the caller passes in: the parsed JSON body on a
200 response, or one of the failure modes `_make_request` catches.  A JSON
value is the `Json` type below; the ONC endpoints return a top-level array
or object (`_make_request` would crash on any other top-level value, a path
no claim touches). -/

/-- A JSON value, as far as the client inspects one. -/
inductive Json where
  | jnull : Json
  | jnum : Int → Json
  | jstr : String → Json
  | jarr : List Json → Json
  | jobj : List (String × Json) → Json
  deriving Repr

/-- A top-level JSON body of an ONC response: array or object. -/
inductive JsonBody where
  | arr : List Json → JsonBody
  | obj : List (String × Json) → JsonBody
  deriving Repr

/-- The network-level outcome of one `session.get`, before `_make_request`
shapes it: a 200 response with a parsed body, a non-200 status with its
text, or one of the caught exceptions. -/
inductive HttpOutcome where
  | success : JsonBody → HttpOutcome
  | httpFail : Nat → String → HttpOutcome
  | timeout : HttpOutcome
  | requestFailed : String → HttpOutcome
  | jsonParseError : String → HttpOutcome
  deriving Repr

/-- Key lookup in a JSON object's field list (Python `dict` access keeps the
first binding for our purposes; the client never builds duplicate keys). -/
def jsonGet (fields : List (String × Json)) (key : String) : Option Json :=
  (fields.find? (fun kv => kv.1 = key)).map (·.2)

/-- `ONCAPIClient._make_request`, observed at its return value: non-200 /
timeout / connection / JSON-decode failures become `{error, message,
_debug_info}`; a 200 list body is wrapped as `{data: [...], _debug_info}`;
a 200 object body gets `_debug_info` added.  The `_debug_info` payload
(URL, parameters, timings) is abstracted to an empty object: no claim reads
it, and its fields are wall-clock data. -/
def make_request (outcome : HttpOutcome) : List (String × Json) :=
  let debugInfo : Json := .jobj []
  match outcome with
  | .success (.arr items) => [("data", .jarr items), ("_debug_info", debugInfo)]
  | .success (.obj fields) => fields ++ [("_debug_info", debugInfo)]
  | .httpFail code text =>
      [("error", .jstr ("HTTP " ++ toString code)), ("message", .jstr text),
       ("_debug_info", debugInfo)]
  | .timeout =>
      [("error", .jstr "timeout"), ("message", .jstr "Request timed out"),
       ("_debug_info", debugInfo)]
  | .requestFailed msg =>
      [("error", .jstr "request_failed"), ("message", .jstr msg),
       ("_debug_info", debugInfo)]
  | .jsonParseError msg =>
      [("error", .jstr "json_parse_error"), ("message", .jstr msg),
       ("_debug_info", debugInfo)]

/-- `ONCAPIClient.get_devices(location_code, device_category)`: issues the
`devices` request and post-processes `_make_request`'s return value.  The
Python reads
`devices = response if isinstance(response, list) else []`
— but `_make_request` always returns a dict (a list body was wrapped as
`{data: ..., _debug_info}`), so this always takes the `else []` branch; the
category list-comprehension below it is likewise dead, because its guard
`device_category and not any('deviceCategoryCode' in p for p in [params])`
requires the `deviceCategoryCode` key to be absent from `params` while
`device_category` put it there. -/
def deviceCategoryMatches (device_category : String) (d : Json) : Bool :=
  match d with
  | .jobj fields =>
      match jsonGet fields "deviceCategoryCode" with
      | some (.jstr s) => s == device_category
      | _ => false
  | _ => false

def get_devices (outcome : HttpOutcome) (location_code : String)
    (device_category : Option String) : List Json :=
  let paramsHaveCategoryKey := device_category.isSome
  let response : Json := .jobj (make_request outcome)
  let hasErrorKey :=
    match response with
    | .jobj fields => (jsonGet fields "error").isSome
    | _ => false
  if hasErrorKey then []
  else
    let devices :=
      match response with
      | .jarr items => items
      | _ => []
    if device_category.isSome && !paramsHaveCategoryKey then
      devices.filter (deviceCategoryMatches (device_category.getD ""))
    else devices

/-- A raw per-sensor payload as `format_sensor_data` reads it, after the
`.get` defaults: `sensor.get("sensorName", "Unknown Sensor")` etc. are the
`Option` fields here, and the three series under `sensor.get("data", {})`
are the lists (absent keys default to `[]`).  Values and sample times are
opaque JSON scalars; QA/QC flags are the integers the comparison `== 0`
inspects. -/
structure RawSensor where
  sensorName : Option String
  propertyCode : Option String
  unitOfMeasure : Option String
  values : List Json
  sampleTimes : List Json
  qaqcFlags : List Int
  deriving Repr

/-- One entry of `format_sensor_data`'s output. -/
structure FormattedSensor where
  sensor_name : String
  property_code : String
  unit : String
  latest_value : Option Json
  latest_time : Option Json
  qaqc_flag : Option Int
  qaqc_status : String
  total_readings : Nat
  all_values : List Json
  all_times : List Json
  deriving Repr

/-- The entry `format_sensor_data` builds for one kept sensor:
`values[-1]` / `sample_times[-1]` / `qaqc_flags[-1] if qaqc_flags else None`
become `getLast?`, and `"Passed" if latest_qaqc == 0 else "Check Required"`
(with `None == 0` false in Python) is the `some 0` test. -/
def formatEntry (s : RawSensor) : FormattedSensor :=
  { sensor_name := s.sensorName.getD "Unknown Sensor"
    property_code := s.propertyCode.getD "Unknown Property"
    unit := s.unitOfMeasure.getD ""
    latest_value := s.values.getLast?
    latest_time := s.sampleTimes.getLast?
    qaqc_flag := s.qaqcFlags.getLast?
    qaqc_status := if s.qaqcFlags.getLast? = some 0 then "Passed" else "Check Required"
    total_readings := s.values.length
    all_values := s.values
    all_times := s.sampleTimes }

/-- `ONCAPIClient.format_sensor_data`: the loop over `sensor_data`, skipping
a sensor when `not values or not sample_times`. -/
def format_sensor_data : List RawSensor → List FormattedSensor
  | [] => []
  | s :: rest =>
      if s.values.isEmpty || s.sampleTimes.isEmpty then format_sensor_data rest
      else formatEntry s :: format_sensor_data rest

/-! ## Conversation Manager
Embedding of `src/conversation/manager.py`.  `datetime.now()` is a `Nat`
timestamp passed by the caller; message metadata is an opaque association
list (no claim reads into it). -/

inductive MessageType where
  | user : MessageType
  | assistant : MessageType
  | system : MessageType
  deriving Repr, DecidableEq

structure ConversationMessage where
  type : MessageType
  content : String
  timestamp : Nat
  metadata : Option (List (String × String))
  deriving Repr, DecidableEq

/-- The `ConversationManager` state the claims touch: its two configured
limits and the history list (the session clock and last-query cache are
orthogonal to every claim). -/
structure ConversationManager where
  max_history_length : Nat
  context_window_minutes : Nat
  conversation_history : List ConversationMessage
  deriving Repr, DecidableEq

/-- `ConversationManager._trim_history`: when the list is longer than
`max_history_length * 2`, keep `self.conversation_history[-messages_to_keep:]`.
Python's `list[-k:]` is the last `k` elements for `k ≥ 1` but the whole
list for `k = 0` (`-0 == 0`), which the `k = 0` branch reproduces. -/
def trimHistory (max_history_length : Nat) (h : List ConversationMessage) :
    List ConversationMessage :=
  if h.length > max_history_length * 2 then
    let messages_to_keep := max_history_length * 2
    if messages_to_keep = 0 then h
    else h.drop (h.length - messages_to_keep)
  else h

/-- `ConversationManager.add_user_message`: append, then trim. -/
def add_user_message (cm : ConversationManager) (message : String) (now : Nat)
    (metadata : Option (List (String × String))) : ConversationManager :=
  { cm with
    conversation_history :=
      trimHistory cm.max_history_length
        (cm.conversation_history ++ [⟨.user, message, now, metadata⟩]) }

/-- `ConversationManager.add_assistant_message`: append, then trim. -/
def add_assistant_message (cm : ConversationManager) (message : String)
    (now : Nat) (metadata : Option (List (String × String))) :
    ConversationManager :=
  { cm with
    conversation_history :=
      trimHistory cm.max_history_length
        (cm.conversation_history ++ [⟨.assistant, message, now, metadata⟩]) }

/-- The fixed follow-up indicator vocabulary of
`ConversationManager.detect_follow_up_question`. -/
def followUpIndicators : List String :=
  ["it", "that", "this", "them", "those", "there",
   "also", "more", "again", "further", "additional",
   "when", "before", "after", "since", "during",
   "compared to", "vs", "versus", "difference",
   "what about", "how about", "what if"]

/-- `ConversationManager._calculate_follow_up_confidence`: additive weights
0.5 / 0.2 / 0.3, capped at 1.0. -/
def calculate_follow_up_confidence (has_indicators is_short has_recent_context : Bool) : ℚ :=
  let confidence : ℚ :=
    (if has_indicators then 1/2 else 0)
    + (if is_short then 1/5 else 0)
    + (if has_recent_context then 3/10 else 0)
  min confidence 1

/-- The fields of `detect_follow_up_question`'s result dict that the claims
inspect (`context_info` carries only echoes of prior state). -/
structure FollowUpResult where
  is_follow_up : Bool
  confidence : ℚ
  indicators_found : List String
  deriving Repr, DecidableEq

/-- `ConversationManager.detect_follow_up_question`: an indicator check over
the lowercased query, a `len(current_query.split()) <= 5` shortness check,
a non-empty-history check, and the additive confidence. -/
def detect_follow_up_question (cm : ConversationManager) (current_query : String) :
    FollowUpResult :=
  let query_lower := pyToLower current_query
  let has_indicators := followUpIndicators.any (fun ind => containsSub query_lower ind)
  let is_short := pyWordCount current_query ≤ 5
  let has_recent_context := cm.conversation_history.length > 0
  { is_follow_up := has_indicators && decide has_recent_context
    confidence := calculate_follow_up_confidence has_indicators (decide is_short)
      (decide has_recent_context)
    indicators_found := followUpIndicators.filter (fun ind => containsSub query_lower ind) }

/-! ## Query Router
Embedding of `src/query_routing/router.py`.  The two model-based tiers call
external services (a fine-tuned classifier, a hosted LLM); each is modelled
as an `Option RoutingDecision` the environment supplies: `none` stands for
"this tier raised" and the tier-enable flags stand for
`use_bert_routing` / `use_llm_routing` (false when the backing resource
failed to load).  The keyword tier is embedded in full. -/

inductive QueryType where
  | vector_search : QueryType
  | database_search : QueryType
  | hybrid_search : QueryType
  | direct_llm : QueryType
  deriving Repr, DecidableEq

/-- A routing decision: the `type` plus the score and parameter entries the
keyword tier writes (each `Option` field is a dict key that may be absent). -/
structure RoutingDecision where
  type : QueryType
  vector_score : Option ℚ
  database_score : Option ℚ
  vector_weight : Option ℚ
  database_weight : Option ℚ
  search_type : Option String
  reason : Option String
  deriving Repr, DecidableEq

/-- The parts of the routing `context` dict that `route_query`'s keyword
tier reads: source availability (`context.get('has_vector_store', True)` /
`context.get('has_database', False)`), and the
`follow_up_info` entries `_adjust_scores_for_follow_up` uses. -/
structure RoutingContext where
  has_vector_store : Option Bool
  has_database : Option Bool
  follow_up_is_follow_up : Bool
  follow_up_confidence : ℚ
  last_route_type : Option QueryType
  deriving Repr, DecidableEq

/-- The router configuration after `config.get(...)` resolution: keyword
lists (`_load_vector_keywords` / `_load_database_keywords` defaults unless
configured) and the three decision thresholds (defaults 0.1 / 0.05 /
0.15). -/
structure RouterConfig where
  vector_keywords : List String
  database_keywords : List String
  vector_threshold : ℚ
  database_threshold : ℚ
  hybrid_threshold : ℚ
  deriving Repr, DecidableEq

/-- `QueryRouter._load_vector_keywords` default list. -/
def defaultVectorKeywords : List String :=
  ["document", "paper", "research", "study", "publication",
   "article", "content", "text", "explain", "describe",
   "what is", "how does", "definition", "overview"]

/-- `QueryRouter._load_database_keywords` default list. -/
def defaultDatabaseKeywords : List String :=
  ["temperature", "salinity", "pressure", "depth", "ph", "oxygen", "conductivity",
   "chlorophyll", "turbidity", "density", "fluorescence",
   "data", "measurement", "sensor", "instrument", "value", "reading",
   "latest", "current", "recent", "today", "yesterday", "now",
   "cambridge bay", "station", "location", "coordinates", "site",
   "time series", "when", "since", "from", "to", "between",
   "get", "show", "find", "retrieve", "what is the", "how much",
   "give me", "tell me"]

/-- The default `RouterConfig`. -/
def defaultRouterConfig : RouterConfig :=
  ⟨defaultVectorKeywords, defaultDatabaseKeywords, 1/10, 1/20, 3/20⟩

/-- `QueryRouter._calculate_vector_score` / `_calculate_database_score`:
one point per keyword occurring as a substring of the (already lowercased)
query, divided by `max(word count, 1)`. -/
def calculate_keyword_score (keywords : List String) (query : String) : ℚ :=
  let word_count := pyWordCount query
  let score : ℚ := (keywords.countP (fun kw => containsSub query kw) : ℚ)
  score / (max word_count 1 : ℚ)

/-- `QueryRouter._adjust_scores_for_follow_up`: a bias of
`0.3 × follow-up confidence` added to the score matching the previous
turn's route (split evenly for a previous hybrid route). -/
def adjust_scores_for_follow_up (vector_score database_score : ℚ)
    (ctx : RoutingContext) : ℚ × ℚ :=
  if !ctx.follow_up_is_follow_up then (vector_score, database_score)
  else
    let bias_strength := ctx.follow_up_confidence * (3/10)
    match ctx.last_route_type with
    | some .vector_search => (vector_score + bias_strength, database_score)
    | some .database_search => (vector_score, database_score + bias_strength)
    | some .hybrid_search =>
        (vector_score + bias_strength * (1/2), database_score + bias_strength * (1/2))
    | _ => (vector_score, database_score)

/-- `QueryRouter._make_routing_decision`: database-first thresholding, then
vector search, then direct LLM. -/
def make_routing_decision (cfg : RouterConfig) (vector_score database_score : ℚ)
    (ctx : RoutingContext) : RoutingDecision :=
  let has_vector_store := ctx.has_vector_store.getD true
  let has_database := ctx.has_database.getD false
  if has_database ∧ database_score > 0 then
    if database_score > cfg.hybrid_threshold ∧ vector_score > cfg.vector_threshold then
      { type := .hybrid_search, vector_score := some vector_score,
        database_score := some database_score,
        vector_weight := some (3/10), database_weight := some (7/10),
        search_type := none, reason := none }
    else
      { type := .database_search, vector_score := none,
        database_score := some database_score,
        vector_weight := none, database_weight := none,
        search_type := some "structured", reason := none }
  else if vector_score > cfg.vector_threshold ∧ has_vector_store then
    { type := .vector_search, vector_score := some vector_score,
      database_score := none, vector_weight := none, database_weight := none,
      search_type := some "semantic", reason := none }
  else
    { type := .direct_llm, vector_score := none, database_score := none,
      vector_weight := none, database_weight := none, search_type := none,
      reason := some "No suitable data source or low confidence scores" }

/-- `QueryRouter.route_query`: the three-tier cascade.  `bertTier` /
`llmTier` are the decisions the model-based tiers would return (`none` for
a raised exception); a disabled tier is never consulted.  The model-tier
context enhancement (`_enhance_routing_with_context`) only annotates the
returned decision's `parameters`, so it is left on the external decisions
unmodelled; the keyword tier — the only tier the claims inspect — returns
`_make_routing_decision` directly, after the follow-up score adjustment. -/
def route_query (use_bert_routing use_llm_routing : Bool)
    (bertTier llmTier : Option RoutingDecision) (cfg : RouterConfig)
    (query : String) (ctx : RoutingContext) : RoutingDecision :=
  match (if use_bert_routing then bertTier else none) with
  | some decision => decision
  | none =>
    match (if use_llm_routing then llmTier else none) with
    | some decision => decision
    | none =>
      let query_lower := pyToLower query
      let vector_score := calculate_keyword_score cfg.vector_keywords query_lower
      let database_score := calculate_keyword_score cfg.database_keywords query_lower
      let (vector_score, database_score) :=
        if ctx.follow_up_is_follow_up then
          adjust_scores_for_follow_up vector_score database_score ctx
        else (vector_score, database_score)
      make_routing_decision cfg vector_score database_score ctx

/-! ## Calendar arithmetic
Proleptic-Gregorian day counts (epoch 1970-01-01 = day 0), the calendar
Python's `datetime.date` implements.  `validDate` is exactly the domain on
which `datetime(y, m, d)` does not raise `ValueError` (years 1–9999). -/

def isLeapYear (y : Int) : Bool := y % 4 == 0 && (y % 100 != 0 || y % 400 == 0)

def daysInMonth (y : Int) (m : Nat) : Nat :=
  match m with
  | 1 => 31 | 2 => if isLeapYear y then 29 else 28 | 3 => 31 | 4 => 30
  | 5 => 31 | 6 => 30 | 7 => 31 | 8 => 31 | 9 => 30 | 10 => 31 | 11 => 30
  | 12 => 31 | _ => 0

def validDate (y : Int) (m d : Nat) : Bool :=
  1 ≤ y && y ≤ 9999 && 1 ≤ m && m ≤ 12 && 1 ≤ d && d ≤ daysInMonth y m

structure CivilDate where
  year : Int
  month : Nat
  day : Nat
  deriving Repr, DecidableEq

/-- Days since 1970-01-01 of a civil date (the standard era/day-of-era
computation over 400-year cycles). -/
def civilToDays (c : CivilDate) : Int :=
  let y := if c.month ≤ 2 then c.year - 1 else c.year
  let era := Int.fdiv y 400
  let yoe := (y - era * 400).toNat
  let mp := (c.month + 9) % 12
  let doy := (153 * mp + 2) / 5 + c.day - 1
  let doe := yoe * 365 + yoe / 4 - yoe / 100 + doy
  era * 146097 + (doe : Int) - 719468

/-- Civil date of a day number (inverse of `civilToDays`). -/
def daysToCivil (z : Int) : CivilDate :=
  let z' := z + 719468
  let era := Int.fdiv z' 146097
  let doe := (z' - era * 146097).toNat
  let yoe := (doe - doe / 1460 + doe / 36524 - doe / 146096) / 365
  let y := (yoe : Int) + era * 400
  let doy := doe - (365 * yoe + yoe / 4 - yoe / 100)
  let mp := (5 * doy + 2) / 153
  let d := doy - (153 * mp + 2) / 5 + 1
  let m := if mp < 10 then mp + 3 else mp - 9
  ⟨if m ≤ 2 then y + 1 else y, m, d⟩

/-- Python `date.weekday()`: Monday = 0.  Day 0 (1970-01-01) was a
Thursday. -/
def pyWeekday (z : Int) : Nat := ((z + 3).emod 7).toNat

/-- A `datetime` as the temporal parser manipulates one: its calendar day
number and the seconds into that day.  `timedelta` arithmetic in the source
only ever shifts whole days/weeks/hours that stay within a day. -/
structure PyDateTime where
  days : Int
  secs : Nat
  deriving Repr, DecidableEq

/-! ## Enhanced Parameter Extractor: temporal parsing
Embedding of `_parse_temporal_reference` / `_parse_specific_date` in
`src/database_search/enhanced_parameter_extractor.py`, including the regex
scans, character by character (`\d` is modelled as the ASCII digits, the
only digits the surrounding pipeline produces; `\s` as
`Char.isWhitespace`). -/

def digitVal (c : Char) : Nat := c.toNat - '0'.toNat

/-- Greedy `(\d{1,2})` at the head: two digits if the first two characters
are digits, else one.  Nothing after the group can force backtracking when
the pattern ends with it. -/
def takeDigits12 : List Char → Option (Nat × List Char)
  | a :: b :: rest =>
      if a.isDigit then
        if b.isDigit then some (10 * digitVal a + digitVal b, rest)
        else some (digitVal a, b :: rest)
      else none
  | [a] => if a.isDigit then some (digitVal a, []) else none
  | [] => none

/-- `(\d{1,2})` followed by a literal separator, with the regex backtracking
from two digits to one when the separator fails to follow. -/
def digitsThenSep (sep : Char) : List Char → Option (Nat × List Char)
  | a :: b :: rest =>
      if a.isDigit then
        if b.isDigit then
          match rest with
          | c :: rest2 =>
              if c == sep then some (10 * digitVal a + digitVal b, rest2)
              else if b == sep then some (digitVal a, rest) else none
          | [] => if b == sep then some (digitVal a, []) else none
        else if b == sep then some (digitVal a, rest) else none
      else none
  | _ => none

/-- `re.match(r'(\d{4})-(\d{1,2})-(\d{1,2})', ref)`: anchored at the start,
trailing characters permitted. -/
def parseIso : List Char → Option (Nat × Nat × Nat)
  | a :: b :: c :: d :: rest =>
      if a.isDigit && b.isDigit && c.isDigit && d.isDigit then
        let year := ((digitVal a * 10 + digitVal b) * 10 + digitVal c) * 10 + digitVal d
        match rest with
        | e :: rest1 =>
            if e == '-' then
              match digitsThenSep '-' rest1 with
              | some (month, rest2) =>
                  match takeDigits12 rest2 with
                  | some (day, _) => some (year, month, day)
                  | none => none
              | none => none
            else none
        | [] => none
      else none
  | _ => none

/-- The month-name dictionary of `_parse_specific_date`, in insertion
order. -/
def monthsList : List (String × Nat) :=
  [("january", 1), ("jan", 1), ("february", 2), ("feb", 2), ("march", 3),
   ("mar", 3), ("april", 4), ("apr", 4), ("may", 5), ("june", 6), ("jun", 6),
   ("july", 7), ("jul", 7), ("august", 8), ("aug", 8), ("september", 9),
   ("sep", 9), ("sept", 9), ("october", 10), ("oct", 10), ("november", 11),
   ("nov", 11), ("december", 12), ("dec", 12)]

def ordinalSuffixes : List String := ["st", "nd", "rd", "th"]

/-- `\s+` followed by the month name: the name starts with a non-whitespace
character, so consuming the maximal whitespace run is equivalent to the
regex's backtracking. -/
def wsThenName (name : List Char) : List Char → Bool
  | c :: rest =>
      c.isWhitespace && startsWithChars name (rest.dropWhile Char.isWhitespace)
  | [] => false

/-- Attempt `name\s+(\d{1,2})(?:st|nd|rd|th)?` anchored at the head;
returns the captured day. -/
def matchMonthThenDay (name : List Char) (cs : List Char) : Option Nat :=
  if startsWithChars name cs then
    match cs.drop name.length with
    | c :: rest =>
        if c.isWhitespace then
          match takeDigits12 (rest.dropWhile Char.isWhitespace) with
          | some (day, _) => some day
          | none => none
        else none
    | [] => none
  else none

/-- Attempt `(\d{1,2})(?:st|nd|rd|th)?\s+name` anchored at the head, with
the regex's backtracking: two digits before one, a consumed ordinal suffix
before an empty one. -/
def matchDayThenMonth (name : List Char) (cs : List Char) : Option Nat :=
  let afterDigits := fun (day : Nat) (rest : List Char) =>
    let withSuffix :=
      ordinalSuffixes.any (fun suf =>
        startsWithChars suf.data rest && wsThenName name (rest.drop 2))
    if withSuffix || wsThenName name rest then some day else none
  match cs with
  | a :: b :: rest =>
      if a.isDigit then
        if b.isDigit then
          match afterDigits (10 * digitVal a + digitVal b) rest with
          | some day => some day
          | none => afterDigits (digitVal a) (b :: rest)
        else afterDigits (digitVal a) (b :: rest)
      else none
  | [a] => none
  | [] => none

/-- `re.search`: try the anchored matcher at each start position, leftmost
first. -/
def searchAt {α : Type} (m : List Char → Option α) : List Char → Option α
  | [] => m []
  | c :: rest =>
      match m (c :: rest) with
      | some x => some x
      | none => searchAt m rest

/-- Lines 458–476 of `enhanced_parameter_extractor.py`: resolve the year for
a month/day with no year given.  Start from the current year; more than 180
days in the future → previous year; more than 180 days in the past → next
year.  `none` is the `ValueError` → `continue` path (invalid date in either
the current or the adjusted year). -/
def resolveYearlessDate (now : PyDateTime) (month day : Nat) : Option CivilDate :=
  let current_year := (daysToCivil now.days).year
  if validDate current_year month day then
    let candidate : CivilDate := ⟨current_year, month, day⟩
    let days_diff := civilToDays candidate - now.days
    if days_diff > 180 then
      if validDate (current_year - 1) month day then
        some ⟨current_year - 1, month, day⟩
      else none
    else if days_diff < -180 then
      if validDate (current_year + 1) month day then
        some ⟨current_year + 1, month, day⟩
      else none
    else some candidate
  else none

/-- The two patterns tried for one month name, in order; a match whose date
resolution raises continues to the next pattern. -/
def tryMonthPatterns (now : PyDateTime) (name : String) (mnum : Nat)
    (ref : List Char) : Option CivilDate :=
  let first :=
    match searchAt (matchMonthThenDay name.data) ref with
    | some day => resolveYearlessDate now mnum day
    | none => none
  match first with
  | some d => some d
  | none =>
      match searchAt (matchDayThenMonth name.data) ref with
      | some day => resolveYearlessDate now mnum day
      | none => none

/-- The `for month_name, month_num in months.items()` loop. -/
def monthNamePhase (now : PyDateTime) : List (String × Nat) → List Char → Option CivilDate
  | [], _ => none
  | (name, mnum) :: restMonths, ref =>
      match tryMonthPatterns now name mnum ref with
      | some d => some d
      | none => monthNamePhase now restMonths ref

def firstSome {α β : Type} (f : α → Option β) : List α → Option β
  | [] => none
  | x :: xs =>
      match f x with
      | some y => some y
      | none => firstSome f xs

/-- Anchored match for one numeric pattern
`(\d{1,2})<sep>(\d{1,2})[<sep>(\d{4})]`, with the regex's group
backtracking (two digits before one in each of the first two groups). -/
def matchNumericAt (sep : Char) (withYear : Bool) (cs : List Char) :
    Option (Nat × Nat × Option Nat) :=
  let finish := fun (p1 p2 : Nat) (rest : List Char) =>
    if withYear then
      match rest with
      | c :: rest1 =>
          if c == sep then
            match rest1 with
            | a :: b :: d :: e :: _ =>
                if a.isDigit && b.isDigit && d.isDigit && e.isDigit then
                  some (p1, p2,
                    some (((digitVal a * 10 + digitVal b) * 10 + digitVal d) * 10
                      + digitVal e))
                else none
            | _ => none
          else none
      | [] => none
    else some (p1, p2, none)
  match digitsThenSep sep cs with
  | some (p1, rest1) =>
      match rest1 with
      | a :: b :: rest =>
          if a.isDigit then
            if b.isDigit then
              match finish p1 (10 * digitVal a + digitVal b) rest with
              | some r => some r
              | none => finish p1 (digitVal a) (b :: rest)
            else finish p1 (digitVal a) (b :: rest)
          else none
      | [a] => if a.isDigit then finish p1 (digitVal a) [] else none
      | [] => none
  | none => none

/-- Date resolution for one numeric-pattern match: try `(part1, part2)`
then `(part2, part1)` as `(month, day)`; bounds-check; build the date
(`ValueError` → next interpretation); the 180-day year adjustment applies
only when the pattern carried no year. -/
def resolveNumericMatch (now : PyDateTime) (p : Nat × Nat × Option Nat) :
    Option CivilDate :=
  let (part1, part2, yearOpt) := p
  let year : Int :=
    match yearOpt with
    | some y => (y : Int)
    | none => (daysToCivil now.days).year
  firstSome (fun (md : Nat × Nat) =>
    let (month, day) := md
    if 1 ≤ month && month ≤ 12 && 1 ≤ day && day ≤ 31 then
      if validDate year month day then
        match yearOpt with
        | some _ => some (⟨year, month, day⟩ : CivilDate)
        | none =>
            let candidate : CivilDate := ⟨year, month, day⟩
            let days_diff := civilToDays candidate - now.days
            if days_diff > 180 then
              if validDate (year - 1) month day then some ⟨year - 1, month, day⟩
              else none
            else if days_diff < -180 then
              if validDate (year + 1) month day then some ⟨year + 1, month, day⟩
              else none
            else some candidate
      else none
    else none) [(part1, part2), (part2, part1)]

/-- The four numeric patterns of `_parse_specific_date`, in order. -/
def numericPhase (now : PyDateTime) (ref : List Char) : Option CivilDate :=
  firstSome (fun (pat : Char × Bool) =>
    match searchAt (matchNumericAt pat.1 pat.2) ref with
    | some m => resolveNumericMatch now m
    | none => none)
    [('/', true), ('/', false), ('-', true), ('-', false)]

/-- `EnhancedParameterExtractor._parse_specific_date`: ISO prefix first (an
invalid calendar combination falls through), then month names, then the
numeric patterns. -/
def parse_specific_date (ref : List Char) (now : PyDateTime) : Option CivilDate :=
  let iso : Option CivilDate :=
    match parseIso ref with
    | some (y, m, d) => if validDate (y : Int) m d then some ⟨(y : Int), m, d⟩ else none
    | none => none
  match iso with
  | some d => some d
  | none =>
      match monthNamePhase now monthsList ref with
      | some d => some d
      | none => numericPhase now ref

def dayNames : List String :=
  ["monday", "tuesday", "wednesday", "thursday", "friday", "saturday", "sunday"]

/-- The `for i, day in enumerate(days)` scan: index of the first weekday
name occurring in the reference. -/
def findDayName (ref : List Char) : Option Nat :=
  let rec go : Nat → List String → Option Nat
    | _, [] => none
    | i, d :: ds => if occursIn d.data ref then some i else go (i + 1) ds
  go 0 dayNames

/-- The single-date / range window built at the end of
`_parse_temporal_reference`: midnight of the resolved date through +12
hours (`single_date`) or +1 day (otherwise). -/
def temporalWindow (z : Int) (temporal_type : String) : PyDateTime × PyDateTime :=
  if temporal_type = "single_date" then (⟨z, 0⟩, ⟨z, 43200⟩)
  else (⟨z, 0⟩, ⟨z + 1, 0⟩)

/-- `EnhancedParameterExtractor._parse_temporal_reference`: empty reference
→ the last 24 hours; else lowercase+strip, try `_parse_specific_date`, then
the relative keywords (`today`, `yesterday`, `last week`, weekday names),
else default to yesterday. -/
def parse_temporal_reference (temporal_ref : String) (temporal_type : String)
    (now : PyDateTime) : PyDateTime × PyDateTime :=
  if temporal_ref = "" then (⟨now.days - 1, now.secs⟩, now)
  else
    let ref := (pyStrip (pyToLower temporal_ref)).data
    match parse_specific_date ref now with
    | some date => temporalWindow (civilToDays date) temporal_type
    | none =>
        if occursIn "today".data ref then temporalWindow now.days temporal_type
        else if occursIn "yesterday".data ref then
          temporalWindow (now.days - 1) temporal_type
        else if occursIn "last week".data ref then (⟨now.days - 7, now.secs⟩, now)
        else
          match findDayName ref with
          | some i =>
              let current_weekday := pyWeekday now.days
              let diff : Int := (i : Int) - (current_weekday : Int)
              let diff := if diff ≥ 0 then diff - 7 else diff
              temporalWindow (now.days + diff) temporal_type
          | none => temporalWindow (now.days - 1) temporal_type

/-! ## Concrete fixtures used by witnesses and counterexamples -/

/-- A device record as the ONC `devices` endpoint returns one. -/
def sampleDevice : Json :=
  .jobj [("deviceCode", .jstr "CTDAML1"), ("deviceName", .jstr "CTD Instrument"),
         ("deviceCategoryCode", .jstr "CTD")]

/-! ## Helper lemmas -/

theorem deleteOneChat_of_no_match {chats : List ChatDoc} {cid : String}
    (h : ∀ c ∈ chats, c.oid ≠ cid) : deleteOneChat chats cid = (chats, 0) := by
  induction chats with
  | nil => rfl
  | cons c cs ih =>
      have hc : c.oid ≠ cid := h c (List.mem_cons_self c cs)
      have ih' := ih (fun x hx => h x (List.mem_cons_of_mem c hx))
      simp [deleteOneChat, hc, ih']

theorem deleteOneChat_of_match {chats : List ChatDoc} {cid : String}
    (hnodup : (chats.map (fun c => c.oid)).Nodup)
    (hmem : ∃ c ∈ chats, c.oid = cid) :
    (∀ c ∈ (deleteOneChat chats cid).1, c.oid ≠ cid) ∧
      (deleteOneChat chats cid).2 = 1 := by
  induction chats with
  | nil => simp at hmem
  | cons c cs ih =>
      rw [List.map_cons, List.nodup_cons] at hnodup
      by_cases hc : c.oid = cid
      · have h1 : ∀ x ∈ cs, x.oid ≠ cid := by
          intro x hx heq
          exact hnodup.1 (List.mem_map.mpr ⟨x, hx, heq.trans hc.symm⟩)
        simp only [deleteOneChat, if_pos hc]
        exact ⟨h1, trivial⟩
      · obtain ⟨w, hw, hweq⟩ := hmem
        rcases List.mem_cons.mp hw with rfl | hw'
        · exact absurd hweq hc
        · have := ih hnodup.2 ⟨w, hw', hweq⟩
          simp only [deleteOneChat, if_neg hc]
          constructor
          · intro x hx
            rcases List.mem_cons.mp hx with rfl | hx'
            · exact hc
            · exact this.1 x hx'
          · exact this.2

theorem updateOneChat_sets {chats : List ChatDoc} {cid : String} (s : String)
    (ts : Nat) (hmem : ∃ c ∈ chats, c.oid = cid) :
    ∃ c' ∈ (updateOneChat chats cid ⟨some s, some ts⟩).1,
      c'.oid = cid ∧ c'.summary = s ∧ c'.last_timestamp = ts := by
  induction chats with
  | nil => simp at hmem
  | cons c cs ih =>
      by_cases hc : c.oid = cid
      · refine ⟨applyChatUpdate ⟨some s, some ts⟩ c, ?_, hc, rfl, rfl⟩
        simp [updateOneChat, hc]
      · obtain ⟨w, hw, hweq⟩ := hmem
        rcases List.mem_cons.mp hw with rfl | hw'
        · exact absurd hweq hc
        · obtain ⟨c', hc'mem, hc'⟩ := ih ⟨w, hw', hweq⟩
          refine ⟨c', ?_, hc'⟩
          simp only [updateOneChat, if_neg hc]
          exact List.mem_cons_of_mem c hc'mem

theorem updateOneMessageRating_count_zero_iff {msgs : List MessageDoc}
    {mid : String} {r : Int} :
    (updateOneMessageRating msgs mid r).2 = 0 ↔ ∀ m ∈ msgs, m.oid ≠ mid := by
  induction msgs with
  | nil => simp [updateOneMessageRating]
  | cons m ms ih =>
      by_cases hm : m.oid = mid
      · simp [updateOneMessageRating, hm]
      · simp only [updateOneMessageRating, if_neg hm]
        rw [List.forall_mem_cons]
        constructor
        · intro h
          exact ⟨hm, ih.mp h⟩
        · intro h
          exact ih.mpr h.2

theorem update_message_rating_snd (db : DB) (mid : String) (r : Int) :
    (update_message_rating db mid r).2 =
      if r = -1 ∨ r = 0 ∨ r = 1 then
        (if ∃ m ∈ db.messages, m.oid = mid then ApiResult.ok "Rating updated"
         else ApiResult.httpError 404 "Message not found")
      else ApiResult.httpError 400 "Rating must be -1, 0, or 1" := by
  by_cases hv : r ∈ ([-1, 0, 1] : List Int)
  · have hv' : r = -1 ∨ r = 0 ∨ r = 1 := by simpa using hv
    by_cases hz : (updateOneMessageRating db.messages mid r).2 = 0
    · have hall := updateOneMessageRating_count_zero_iff.mp hz
      have hnex : ¬∃ m ∈ db.messages, m.oid = mid := by
        rintro ⟨m, hm, hmeq⟩
        exact hall m hm hmeq
      simp [update_message_rating, hv, hz, hnex, hv']
    · have hex : ∃ m ∈ db.messages, m.oid = mid := by
        by_contra hno
        push_neg at hno
        exact hz (updateOneMessageRating_count_zero_iff.mpr hno)
      simp [update_message_rating, hv, hz, hex, hv']
  · have hv' : ¬(r = -1 ∨ r = 0 ∨ r = 1) := by simpa using hv
    simp [update_message_rating, hv, hv']

/-! ## Claim theorems -/

/-- **C1** (code bug): the spec says `get_devices` returns the device list
the `devices` endpoint reports, non-empty for a successful non-empty
upstream list.  The code wraps every successful list body into a dict in
`_make_request` but `get_devices` still tests `isinstance(response, list)`,
so it returns `[]` for every successful response — with and without a
category filter — contradicting its own docstring ("Returns: List of device
information dictionaries"). -/
theorem get_devices_successful_list_dropped :
    get_devices (.success (.arr [sampleDevice])) "CBYIP" (some "CTD") = []
    ∧ get_devices (.success (.arr [sampleDevice])) "CBYIP" none = [] :=
  ⟨rfl, rfl⟩

/-- **C2**: deleting an existing chat removes every message carrying its id
and the chat itself and reports success; deleting an absent chat id reports
404. -/
theorem chat_cascade_delete_spec (db : DB) (cid : String)
    (hnodup : (db.chats.map (fun c => c.oid)).Nodup) :
    ((∃ c ∈ db.chats, c.oid = cid) →
      (delete_chat db cid).2 = .ok "Chat and related messages deleted"
      ∧ (∀ m ∈ (delete_chat db cid).1.messages, m.chat_id ≠ cid)
      ∧ (∀ c ∈ (delete_chat db cid).1.chats, c.oid ≠ cid))
    ∧ ((∀ c ∈ db.chats, c.oid ≠ cid) →
      (delete_chat db cid).2 = .httpError 404 "Chat not found") := by
  constructor
  · intro hex
    have h := deleteOneChat_of_match hnodup hex
    have hcount : (deleteOneChat db.chats cid).2 = 1 := h.2
    refine ⟨?_, ?_, ?_⟩
    · simp [delete_chat, hcount]
    · intro m hm
      simp only [delete_chat, hcount] at hm
      norm_num at hm
      exact hm.2
    · intro c hc
      simp only [delete_chat, hcount] at hc
      norm_num at hc
      exact h.1 c hc
  · intro habsent
    have h := deleteOneChat_of_no_match habsent
    simp [delete_chat, h]

def dbC2 : DB :=
  ⟨[⟨"c1", "u1", "s", 0⟩],
   [⟨"m1", "c1", "u1", "hello", 0, 1⟩, ⟨"m2", "c1", "u1", "again", 0, 2⟩]⟩

theorem chat_cascade_delete_spec_witness :
    ((∃ c ∈ dbC2.chats, c.oid = "c1") →
      (delete_chat dbC2 "c1").2 = .ok "Chat and related messages deleted"
      ∧ (∀ m ∈ (delete_chat dbC2 "c1").1.messages, m.chat_id ≠ "c1")
      ∧ (∀ c ∈ (delete_chat dbC2 "c1").1.chats, c.oid ≠ "c1"))
    ∧ ((∀ c ∈ dbC2.chats, c.oid ≠ "c1") →
      (delete_chat dbC2 "c1").2 = .httpError 404 "Chat not found") :=
  chat_cascade_delete_spec dbC2 "c1" (by decide)

/-- **C3**: the 404 path of `delete_chat` is not side-effect-free — the
message cascade has already run when the chat-existence check fails, so a
delete reported as Not Found has still removed every message with that chat
id. -/
theorem delete_chat_404_still_deletes_messages (db : DB) (cid : String)
    (habsent : ∀ c ∈ db.chats, c.oid ≠ cid) :
    (delete_chat db cid).2 = .httpError 404 "Chat not found"
    ∧ (delete_chat db cid).1.messages
        = db.messages.filter (fun m => m.chat_id ≠ cid) := by
  have h := deleteOneChat_of_no_match habsent
  constructor
  · simp [delete_chat, h]
  · simp [delete_chat, h]

def dbC3 : DB := ⟨[], [⟨"m1", "c9", "u1", "orphan", 0, 1⟩]⟩

theorem delete_chat_404_still_deletes_messages_witness :
    (delete_chat dbC3 "c9").2 = .httpError 404 "Chat not found"
    ∧ (delete_chat dbC3 "c9").1.messages
        = dbC3.messages.filter (fun m => m.chat_id ≠ "c9") :=
  delete_chat_404_still_deletes_messages dbC3 "c9" (by decide)

def dbC4 : DB := ⟨[⟨"c1", "u1", "", 0⟩], []⟩

/-- **C4** (counterexample): the claim says creating a message with rating
2 is rejected with a 400 Invalid-Input error.  It is not: `create_message`
never reads the supplied rating — the request succeeds and the stored
message carries rating 0. -/
theorem create_message_with_rating_2_succeeds :
    (create_message dbC4 ⟨some "hi", some "c1", some "u1", some 2⟩ 5 "m1").2
      = .ok "m1"
    ∧ ((create_message dbC4 ⟨some "hi", some "c1", some "u1", some 2⟩ 5 "m1").1.messages.map
        (fun m => m.rating)) = [0] := by
  constructor <;> rfl

/-- **C4** (amended): rating validation holds for the update route and the
by-rating listing — updating succeeds exactly for `r ∈ {-1, 0, 1}` on an
existing message and any other value is a 400; the same validation guards
the listing — but message creation ignores any supplied rating (the outcome
is unchanged under replacing it) and every stored message it adds carries
rating 0. -/
theorem message_rating_validation_amended (db : DB) (mid : String) (r : Int)
    (p : MessagePayload) (now : Nat) (nid : String) :
    ((update_message_rating db mid r).2 = .ok "Rating updated"
      ↔ (r = -1 ∨ r = 0 ∨ r = 1) ∧ ∃ m ∈ db.messages, m.oid = mid)
    ∧ ((update_message_rating db mid r).2
        = .httpError 400 "Rating must be -1, 0, or 1"
      ↔ ¬(r = -1 ∨ r = 0 ∨ r = 1))
    ∧ (get_messages_by_rating db r = .httpError 400 "Rating must be -1, 0, or 1"
      ↔ ¬(r = -1 ∨ r = 0 ∨ r = 1))
    ∧ create_message db p now nid
        = create_message db { p with rating := some 2 } now nid
    ∧ (∀ m ∈ (create_message db p now nid).1.messages,
        m ∈ db.messages ∨ m.rating = 0) := by
  refine ⟨?_, ?_, ?_, ?_, ?_⟩
  · rw [update_message_rating_snd]
    by_cases hv : r = -1 ∨ r = 0 ∨ r = 1 <;>
      by_cases hex : ∃ m ∈ db.messages, m.oid = mid <;> simp [hv, hex]
  · rw [update_message_rating_snd]
    by_cases hv : r = -1 ∨ r = 0 ∨ r = 1 <;>
      by_cases hex : ∃ m ∈ db.messages, m.oid = mid <;> simp [hv, hex]
  · by_cases hv : r = -1 ∨ r = 0 ∨ r = 1 <;>
      simp [get_messages_by_rating, hv]
  · obtain ⟨t, c, u, rr⟩ := p
    cases t <;> cases c <;> cases u <;> rfl
  · obtain ⟨t, c, u, rr⟩ := p
    cases t with
    | none => intro m hm; exact Or.inl hm
    | some text =>
        cases c with
        | none => intro m hm; exact Or.inl hm
        | some cid =>
            cases u with
            | none => intro m hm; exact Or.inl hm
            | some uid =>
                intro m hm
                simp only [create_message, update_chat] at hm
                by_cases hn : (updateOneChat db.chats cid
                    ⟨some (pySlice text 100
                      ++ (if text.length > 100 then "..." else "")), some now⟩).2 = 0 <;>
                  simp [hn] at hm <;>
                  rcases hm with hm | hm <;> simp [hm]

/-- **C5**: creating a message sets the parent chat's summary to the first
100 characters of the text followed by `"..."` when the text is longer than
100 characters, and to the text unchanged otherwise. -/
theorem message_summary_truncation (db : DB) (text cid uid : String)
    (rt : Option Int) (now : Nat) (nid : String)
    (hex : ∃ c ∈ db.chats, c.oid = cid) :
    ∃ c' ∈ (create_message db ⟨some text, some cid, some uid, rt⟩ now nid).1.chats,
      c'.oid = cid
      ∧ (100 < text.length → c'.summary = pySlice text 100 ++ "...")
      ∧ (text.length ≤ 100 → c'.summary = text) := by
  obtain ⟨c', hc'mem, hc'oid, hc'sum, hc'ts⟩ :=
    updateOneChat_sets
      (pySlice text 100 ++ (if text.length > 100 then "..." else "")) now hex
  refine ⟨c', ?_, hc'oid, ?_, ?_⟩
  · simp only [create_message, update_chat]
    by_cases hn : (updateOneChat db.chats cid
        ⟨some (pySlice text 100
          ++ (if text.length > 100 then "..." else "")), some now⟩).2 = 0 <;>
      simp [hn]
    · exact hc'mem
    · exact hc'mem
  · intro hlong
    rw [hc'sum, if_pos hlong]
  · intro hshort
    rw [hc'sum, if_neg (by omega)]
    have : text.data.take 100 = text.data :=
      List.take_of_length_le (show text.data.length ≤ 100 from hshort)
    simp [pySlice, this]

def textC5 : String := ⟨List.replicate 101 'a'⟩

def dbC5 : DB := ⟨[⟨"c1", "u1", "", 0⟩], []⟩

theorem message_summary_truncation_witness :
    ∃ c' ∈ (create_message dbC5 ⟨some textC5, some "c1", some "u1", none⟩ 7 "m1").1.chats,
      c'.oid = "c1"
      ∧ (100 < textC5.length → c'.summary = pySlice textC5 100 ++ "...")
      ∧ (textC5.length ≤ 100 → c'.summary = textC5) :=
  message_summary_truncation dbC5 textC5 "c1" "u1" none 7 "m1" (by decide)

/-- **C6**: `format_sensor_data` skips any sensor lacking both values and
sample times, and every kept entry's `qaqc_status` is `"Passed"` exactly
when the latest QA/QC flag is `0`, and `"Check Required"` for every other
flag value including an absent one. -/
theorem format_sensor_data_spec (l : List RawSensor) (s : RawSensor) :
    (s.values = [] ∧ s.sampleTimes = [] →
      format_sensor_data (s :: l) = format_sensor_data l)
    ∧ (∀ e ∈ format_sensor_data l,
        (e.qaqc_status = "Passed" ↔ e.qaqc_flag = some 0)
        ∧ (e.qaqc_status = "Check Required" ↔ e.qaqc_flag ≠ some 0)) := by
  constructor
  · rintro ⟨hv, ht⟩
    simp [format_sensor_data, hv, ht]
  · induction l with
    | nil => intro e he; simp [format_sensor_data] at he
    | cons s' rest ih =>
        intro e he
        by_cases hskip : s'.values.isEmpty || s'.sampleTimes.isEmpty
        · rw [format_sensor_data, if_pos hskip] at he
          exact ih e he
        · rw [format_sensor_data, if_neg hskip] at he
          rcases List.mem_cons.mp he with rfl | he'
          · by_cases hflag : s'.qaqcFlags.getLast? = some 0 <;>
              simp [formatEntry, hflag]
          · exact ih e he'

/-- "Now" for the temporal counterexample: 2023-10-02 12:00. -/
def nowC7 : PyDateTime := ⟨civilToDays ⟨2023, 10, 2⟩, 43200⟩

/-- **C7** (counterexample): with "now" = 2023-10-02, the yearless reference
`"april 4"` resolves to 2024-04-04 — 185 days in the *future* — although
neither adjacent year puts April 4 within 180 days of now (the current-year
candidate is 181 days in the past, so the code jumps to the next year).
This falsifies "resolves to whichever adjacent year keeps the date within
180 days of the current date". -/
theorem temporal_april4_resolves_beyond_180_days :
    parse_specific_date "april 4".data nowC7 = some ⟨2024, 4, 4⟩
    ∧ civilToDays ⟨2024, 4, 4⟩ - nowC7.days = 185
    ∧ civilToDays ⟨2023, 4, 4⟩ - nowC7.days = -181
    ∧ ¬(civilToDays ⟨2024, 4, 4⟩ - nowC7.days ≤ 180) := by
  refine ⟨by decide, by decide, by decide, by decide⟩

/-- **C7** (amended): (1) a reference starting with an ISO `YYYY-MM-DD`
naming a valid calendar date resolves to exactly that date; (2) a
month-name-plus-day reference with no year resolves to the current year
when that date is within 180 days of now, to the previous year when it is
more than 180 days in the future, and to the next year when it is more than
180 days in the past — the chosen date is then usually, but not always,
within 180 days of now; (3) a reference matching no date pattern and no
relative keyword resolves to yesterday, never to a future date. -/
theorem temporal_resolution_amended (ref : List Char) (now : PyDateTime)
    (y m d : Nat) (ty r : String) :
    (parseIso ref = some (y, m, d) → validDate (y : Int) m d = true →
      parse_specific_date ref now = some ⟨(y : Int), m, d⟩)
    ∧ (∀ c, resolveYearlessDate now m d = some c →
        c.month = m ∧ c.day = d
        ∧ (civilToDays ⟨(daysToCivil now.days).year, m, d⟩ - now.days > 180 →
            c.year = (daysToCivil now.days).year - 1)
        ∧ (civilToDays ⟨(daysToCivil now.days).year, m, d⟩ - now.days < -180 →
            c.year = (daysToCivil now.days).year + 1)
        ∧ (-180 ≤ civilToDays ⟨(daysToCivil now.days).year, m, d⟩ - now.days →
            civilToDays ⟨(daysToCivil now.days).year, m, d⟩ - now.days ≤ 180 →
            c.year = (daysToCivil now.days).year))
    ∧ (parse_specific_date (pyStrip (pyToLower r)).data now = none →
        occursIn "today".data (pyStrip (pyToLower r)).data = false →
        occursIn "yesterday".data (pyStrip (pyToLower r)).data = false →
        occursIn "last week".data (pyStrip (pyToLower r)).data = false →
        findDayName (pyStrip (pyToLower r)).data = none →
        (parse_temporal_reference r ty now).1.days = now.days - 1
        ∧ (parse_temporal_reference r ty now).1.days < now.days) := by
  refine ⟨?_, ?_, ?_⟩
  · intro h1 h2
    simp [parse_specific_date, h1, h2]
  · intro c h
    simp only [resolveYearlessDate] at h
    split_ifs at h with hvalid hfut hvp hpast hvn <;>
      first
        | exact Option.noConfusion h
        | (obtain rfl := Option.some.inj h
           refine ⟨rfl, rfl, ?_, ?_, ?_⟩ <;> intros <;> first | rfl | omega)
  · intro hnone ht hy hlw hdn
    by_cases hr : r = ""
    · subst hr
      refine ⟨?_, ?_⟩ <;> simp [parse_temporal_reference]
    · have hres : (parse_temporal_reference r ty now).1
          = (temporalWindow (now.days - 1) ty).1 := by
        simp [parse_temporal_reference, hr, hnone, ht, hy, hlw, hdn]
      have hdays : (temporalWindow (now.days - 1) ty).1.days = now.days - 1 := by
        by_cases hty : ty = "single_date" <;> simp [temporalWindow, hty]
      rw [hres, hdays]
      exact ⟨rfl, by omega⟩

/-- **C8**: follow-up confidence is the sum of the applicable weights
(0.5 for an indicator in the lowercased query, 0.2 for a query of at most
five words, 0.3 for non-empty history) capped at 1.0 — hence always in
[0, 1] — and `is_follow_up` holds exactly when an indicator is present and
history is non-empty. -/
theorem follow_up_confidence_spec (cm : ConversationManager) (q : String) :
    (detect_follow_up_question cm q).confidence
      = min ((if followUpIndicators.any (fun i => containsSub (pyToLower q) i)
                then (1 : ℚ)/2 else 0)
           + (if pyWordCount q ≤ 5 then (1 : ℚ)/5 else 0)
           + (if cm.conversation_history ≠ [] then (3 : ℚ)/10 else 0)) 1
    ∧ 0 ≤ (detect_follow_up_question cm q).confidence
    ∧ (detect_follow_up_question cm q).confidence ≤ 1
    ∧ ((detect_follow_up_question cm q).is_follow_up = true
        ↔ followUpIndicators.any (fun i => containsSub (pyToLower q) i) = true
          ∧ cm.conversation_history ≠ []) := by
  cases hind : followUpIndicators.any (fun i => containsSub (pyToLower q) i) <;>
    by_cases hshort : pyWordCount q ≤ 5 <;>
    by_cases hhist : cm.conversation_history = [] <;>
    simp [detect_follow_up_question, calculate_follow_up_confidence, hind,
      hshort, hhist, List.length_pos] <;>
    norm_num

/-- **C9**: with both model-based tiers unavailable (or failing), the
route is decided by keyword scoring alone — each score the count of
configured keywords occurring in the lowercased query divided by
`max(word count, 1)` — and a query with zero keyword matches in both
lists, with no vector store and no database available, routes to
`direct_llm`. -/
theorem keyword_tier_degradation (use_bert use_llm : Bool)
    (bertTier llmTier : Option RoutingDecision) (cfg : RouterConfig)
    (q : String) (ctx : RoutingContext)
    (hB : (if use_bert then bertTier else none) = none)
    (hL : (if use_llm then llmTier else none) = none) :
    (ctx.follow_up_is_follow_up = false →
      route_query use_bert use_llm bertTier llmTier cfg q ctx
        = make_routing_decision cfg
            ((cfg.vector_keywords.countP
                (fun kw => containsSub (pyToLower q) kw) : ℚ)
              / (max (pyWordCount (pyToLower q)) 1 : ℚ))
            ((cfg.database_keywords.countP
                (fun kw => containsSub (pyToLower q) kw) : ℚ)
              / (max (pyWordCount (pyToLower q)) 1 : ℚ))
            ctx)
    ∧ (ctx.has_vector_store = some false → ctx.has_database = some false →
        ((cfg.vector_keywords ++ cfg.database_keywords).all
          (fun kw => !containsSub (pyToLower q) kw)) = true →
        (route_query use_bert use_llm bertTier llmTier cfg q ctx).type
          = .direct_llm) := by
  constructor
  · intro hfu
    simp [route_query, hB, hL, hfu, calculate_keyword_score]
  · intro hv hd _hall
    have hdecide : ∀ vs ds : ℚ, (make_routing_decision cfg vs ds ctx).type
        = .direct_llm := by
      intro vs ds
      simp [make_routing_decision, hv, hd]
    cases hfu : ctx.follow_up_is_follow_up <;>
      simp [route_query, hB, hL, hfu, hdecide]

def ctxC9 : RoutingContext := ⟨some false, some false, false, 0, none⟩

theorem keyword_tier_degradation_witness :
    (route_query false false none none defaultRouterConfig "hello" ctxC9).type
      = .direct_llm :=
  (keyword_tier_degradation false false none none defaultRouterConfig "hello"
    ctxC9 rfl rfl).2 rfl rfl (by decide)

/-- **C10** (counterexample): with `max_history_length = 0`, adding a
message leaves one entry in the history — more than
`2 × max_history_length = 0` — because Python's `list[-0:]` keeps the whole
list.  This falsifies "the history holds at most 2 × max_history_length
messages after every add". -/
theorem add_message_unbounded_at_zero_max :
    (add_user_message ⟨0, 30, []⟩ "hi" 0 none).conversation_history.length = 1
    ∧ ¬((add_user_message ⟨0, 30, []⟩ "hi" 0 none).conversation_history.length
        ≤ 2 * (0 : ℕ)) := by
  refine ⟨rfl, by decide⟩

/-- **C10** (amended): for `max_history_length ≥ 1` (Python's `list[-k:]`
keeps the whole list when `k = 0`), every `add_user_message` /
`add_assistant_message` leaves at most `2 × max_history_length` entries,
and the kept entries are a suffix of the appended history — the most recent
ones in their original order — of exactly `2 × max_history_length` entries
when trimming occurred and all of them otherwise. -/
theorem history_trim_amended (cm : ConversationManager) (msg : String)
    (now : Nat) (md : Option (List (String × String)))
    (hmax : 1 ≤ cm.max_history_length) :
    ((add_user_message cm msg now md).conversation_history.length
        ≤ 2 * cm.max_history_length
      ∧ (add_user_message cm msg now md).conversation_history
          <:+ cm.conversation_history ++ [⟨.user, msg, now, md⟩]
      ∧ (add_user_message cm msg now md).conversation_history.length
          = min (cm.conversation_history.length + 1) (2 * cm.max_history_length))
    ∧ ((add_assistant_message cm msg now md).conversation_history.length
        ≤ 2 * cm.max_history_length
      ∧ (add_assistant_message cm msg now md).conversation_history
          <:+ cm.conversation_history ++ [⟨.assistant, msg, now, md⟩]
      ∧ (add_assistant_message cm msg now md).conversation_history.length
          = min (cm.conversation_history.length + 1) (2 * cm.max_history_length)) := by
  have key : ∀ l : List ConversationMessage,
      (trimHistory cm.max_history_length l).length
          ≤ max (2 * cm.max_history_length) l.length
      ∧ trimHistory cm.max_history_length l <:+ l
      ∧ (trimHistory cm.max_history_length l).length
          = min l.length (2 * cm.max_history_length) := by
    intro l
    by_cases hlong : l.length > cm.max_history_length * 2
    · have hkeep : ¬(cm.max_history_length * 2 = 0) := by omega
      refine ⟨?_, ?_, ?_⟩
      · simp [trimHistory, hlong, hkeep, List.length_drop] <;> omega
      · simp only [trimHistory, if_pos hlong, if_neg hkeep]
        exact List.drop_suffix _ _
      · simp [trimHistory, hlong, hkeep, List.length_drop] <;> omega
    · refine ⟨?_, ?_, ?_⟩
      · simp [trimHistory, hlong] <;> omega
      · simp only [trimHistory, if_neg hlong]
        exact List.suffix_refl _
      · simp [trimHistory, hlong] <;> omega
  constructor
  · obtain ⟨h1, h2, h3⟩ := key (cm.conversation_history ++ [⟨.user, msg, now, md⟩])
    refine ⟨?_, h2, ?_⟩
    · have := h3
      simp only [List.length_append, List.length_singleton] at this
      simp only [add_user_message, this]
      omega
    · have := h3
      simp only [List.length_append, List.length_singleton] at this
      simpa [add_user_message] using this
  · obtain ⟨h1, h2, h3⟩ := key (cm.conversation_history ++ [⟨.assistant, msg, now, md⟩])
    refine ⟨?_, h2, ?_⟩
    · have := h3
      simp only [List.length_append, List.length_singleton] at this
      simp only [add_assistant_message, this]
      omega
    · have := h3
      simp only [List.length_append, List.length_singleton] at this
      simpa [add_assistant_message] using this

def cmC10 : ConversationManager :=
  ⟨1, 30, [⟨.user, "a", 0, none⟩, ⟨.assistant, "b", 1, none⟩]⟩

theorem history_trim_amended_witness :
    ((add_user_message cmC10 "q" 3 none).conversation_history.length
        ≤ 2 * cmC10.max_history_length
      ∧ (add_user_message cmC10 "q" 3 none).conversation_history
          <:+ cmC10.conversation_history ++ [⟨.user, "q", 3, none⟩]
      ∧ (add_user_message cmC10 "q" 3 none).conversation_history.length
          = min (cmC10.conversation_history.length + 1) (2 * cmC10.max_history_length))
    ∧ ((add_assistant_message cmC10 "q" 3 none).conversation_history.length
        ≤ 2 * cmC10.max_history_length
      ∧ (add_assistant_message cmC10 "q" 3 none).conversation_history
          <:+ cmC10.conversation_history ++ [⟨.assistant, "q", 3, none⟩]
      ∧ (add_assistant_message cmC10 "q" 3 none).conversation_history.length
          = min (cmC10.conversation_history.length + 1) (2 * cmC10.max_history_length)) :=
  history_trim_amended cmC10 "q" 3 none (by decide)

end ONCAssistant
